import Mathlib

set_option maxHeartbeats 1000000

/-- The File Inventory: models the process-wide
`CREATED_FILES : Mutex<HashSet<PathBuf>>` from src/main.rs line 28.
Paths are modelled as strings; `HashSet` semantics (no duplicates,
idempotent insert) are those of `Finset`. -/
abbrev Inventory := Finset String

/-- Outcome environment of one thrash cycle: the value each fallible
operating-system call made by `disk_thrash` (src/main.rs lines 33-79)
would return in this cycle.  `statRes` carries the `metadata.len()`
the stat call reports on success. -/
structure CycleEnv where
  createRes : Except String Unit
  writeRes : Except String Unit
  syncRes : Except String Unit
  statRes : Except String Nat
  removeRes : Except String Unit

/-- Observable actions of one thrash cycle, in program order:
inventory insert (`track`), successful `File::create`, the
`write_all` call, the `sync_all` call, the `metadata` call, the
size-mismatch diagnostic line, the one-second settle sleep, the
`remove_file` call, and the inventory removal (`untrack`). `report`
is the error line printed by the worker loop via eprintln. -/
inductive Event where
  | track (p : String)
  | createOk (p : String)
  | writeAttempt (p : String)
  | syncAttempt (p : String)
  | statAttempt (p : String)
  | mismatchDiag (actual expected : Nat)
  | settleSleep
  | deleteAttempt (p : String)
  | untrack (p : String)
  | report (msg : String)
deriving DecidableEq

/-- Result of one thrash cycle: the `std::io::Result<()>` value, the
File Inventory afterwards, and the trace of observable actions. -/
structure CycleResult where
  res : Except String Unit
  inv : Inventory
  events : List Event

/-- Shallow embedding of `disk_thrash` (src/main.rs lines 33-79).
The filename, built in the source as parent_dir joined with a fresh
UUID plus a .tmp suffix, is a parameter; the buffer is a byte list
(only its emptiness and length are consulted by the code).  Faithful
control flow: the path is inserted into `CREATED_FILES` first, then
`File::create` with early return on error, then the buffer emptiness
check returning the InvalidInput error whose message is Buffer is
empty, then `write_all`, `sync_all` and `metadata` each with early
return on error, the non-fatal size-mismatch diagnostic, the 1-second
sleep, `remove_file` with early return on error, and finally the
inventory removal, returning unit. -/
def disk_thrash (env : CycleEnv) (filename : String) (buffer : List Nat)
    (inv : Inventory) : CycleResult :=
  let inv1 : Inventory := insert filename inv
  match env.createRes with
  | .error e => ⟨.error e, inv1, [.track filename]⟩
  | .ok _ =>
    if buffer.isEmpty then
      ⟨.error "Buffer is empty", inv1, [.track filename, .createOk filename]⟩
    else
      match env.writeRes with
      | .error e => ⟨.error e, inv1,
          [.track filename, .createOk filename, .writeAttempt filename]⟩
      | .ok _ =>
        match env.syncRes with
        | .error e => ⟨.error e, inv1,
            [.track filename, .createOk filename, .writeAttempt filename,
             .syncAttempt filename]⟩
        | .ok _ =>
          match env.statRes with
          | .error e => ⟨.error e, inv1,
              [.track filename, .createOk filename, .writeAttempt filename,
               .syncAttempt filename, .statAttempt filename]⟩
          | .ok len =>
            let diag : List Event :=
              if len ≠ buffer.length then [.mismatchDiag len buffer.length] else []
            let evs : List Event :=
              [.track filename, .createOk filename, .writeAttempt filename,
               .syncAttempt filename, .statAttempt filename] ++ diag ++ [.settleSleep]
            match env.removeRes with
            | .error e => ⟨.error e, inv1, evs ++ [.deleteAttempt filename]⟩
            | .ok _ => ⟨.ok (), inv1.erase filename,
                evs ++ [.deleteAttempt filename, .untrack filename]⟩

/-- An environment in which `File::create` fails (e.g. permission
denied) and every later call would succeed. -/
def envCreateFail : CycleEnv :=
  ⟨.error "Permission denied", .ok (), .ok (), .ok 0, .ok ()⟩

/-- An environment in which every call succeeds and the stat call
reports size 5. -/
def envStatFive : CycleEnv :=
  ⟨.ok (), .ok (), .ok (), .ok 5, .ok ()⟩

/-- One scheduled iteration of the loop of a worker thread: the value the
`STOP_SIGNAL.load(Ordering::SeqCst)` check reads at this cycle
boundary, the syscall outcomes of the cycle, and the fresh filename
(the UUID source is external). -/
structure Iter where
  signal : Bool
  env : CycleEnv
  filename : String

/-- Shallow embedding of the loop of a worker thread (src/main.rs lines
106-114): while the stop signal reads false, run `disk_thrash` and, on
an error result, print the error and keep going.  The loop consumes a
finite schedule of iterations; an exhausted schedule simply truncates
the (unbounded) loop.  Returns the final inventory and the trace of
the worker. -/
def workerLoop (buffer : List Nat) : Inventory → List Iter → Inventory × List Event
  | inv, [] => (inv, [])
  | inv, it :: rest =>
    if it.signal then (inv, [])
    else
      let r := disk_thrash it.env it.filename buffer inv
      let rep : List Event :=
        match r.res with
        | .error e => [.report e]
        | .ok _ => []
      ((workerLoop buffer r.inv rest).1,
        r.events ++ rep ++ (workerLoop buffer r.inv rest).2)

/-- Per-worker control state of the loop in src/main.rs lines 106-114:
`checking` is the cycle boundary where `STOP_SIGNAL` is read,
`running` is a `disk_thrash` cycle in flight, `stopped` is the
terminal state after the loop exits. -/
inductive WState where
  | checking
  | running
  | stopped
deriving DecidableEq

/-- One step of the worker control state, driven by the current value
of `STOP_SIGNAL`.  The signal is consulted only in `checking` (the
cycle boundary); a cycle in flight (`running`) completes regardless of
the signal; `stopped` is terminal. -/
def wstep : WState → Bool → WState
  | .checking, true => .stopped
  | .checking, false => .running
  | .running, _ => .checking
  | .stopped, _ => .stopped

/-- The sequence of worker control states reached from `s` under a
sequence of `STOP_SIGNAL` values, one per step. -/
def statesFrom (s : WState) : List Bool → List WState
  | [] => []
  | b :: bs => wstep s b :: statesFrom (wstep s b) bs

/-- Initial value of `STOP_SIGNAL: AtomicBool = AtomicBool::new(false)`
(src/main.rs line 31). -/
def STOP_SIGNAL_init : Bool := false

/-- The two operations the program ever performs on `STOP_SIGNAL`:
the store of true with SeqCst ordering done by the Ctrl-C handler
(src/main.rs line 86) and the SeqCst load done by the workers (line
107).  No `store(false)` exists in
the program. -/
inductive SigOp where
  | requestStop
  | load

/-- Effect of one `STOP_SIGNAL` operation on the value of the flag. -/
def sigStep : Bool → SigOp → Bool
  | _, .requestStop => true
  | b, .load => b

/-- Value of `STOP_SIGNAL` after a sequence of operations. -/
def sigRun (b : Bool) (ops : List SigOp) : Bool := ops.foldl sigStep b

/-- The usize modulus of the 64-bit targets the program is built for. -/
def USIZE : Nat := 2 ^ 64

/-- Shallow embedding of `let num_threads = num_cpus::get() - 2;`
(src/main.rs line 96): wrapping usize subtraction, as in release
builds (a debug build panics outright when `cores < 2`).  There is no
clamping anywhere in the source. -/
def num_threads (cores : Nat) : Nat := (cores + (USIZE - 2)) % USIZE

/-- Shallow embedding of the final cleanup call
`CREATED_FILES.lock().unwrap().drain().collect()` (src/main.rs line
121): `drain` removes every element from the set and yields all of
them (in unspecified order, hence a `Finset` of results). -/
def drain_all (inv : Inventory) : Finset String × Inventory := (inv, ∅)

/-- A scheduled iteration whose stop-signal read yields true. -/
def iterStop : Iter := ⟨true, envStatFive, "f.tmp"⟩

/-- A scheduled iteration whose stop-signal read yields false and
whose cycle fails at file creation. -/
def iterFail : Iter := ⟨false, envCreateFail, "f.tmp"⟩

/-- Claim C1, counterexample: with a failing `File::create` (permission
denied), the cycle returns the creation error and the path IS in the
File Inventory afterwards — the code inserts the path before
attempting creation (src/main.rs lines 35-39), so the claim that no
path is tracked when creation fails is false. -/
theorem track_on_create_failure_cex :
    (disk_thrash envCreateFail "f.tmp" [0] ∅).res = .error "Permission denied" ∧
    "f.tmp" ∈ (disk_thrash envCreateFail "f.tmp" [0] ∅).inv := by
  constructor
  · rfl
  · simp [disk_thrash, envCreateFail]

/-- Claim C1, amended: in every thrash cycle the path is inserted into
the File Inventory as the very first action, before file creation is
attempted and hence before any write; when file creation fails, the
cycle returns the creation error and the path from that cycle is still
tracked. -/
theorem track_first_even_on_create_failure (env : CycleEnv) (f : String)
    (buf : List Nat) (inv : Inventory) :
    (disk_thrash env f buf inv).events.head? = some (.track f) ∧
    (∀ e, env.createRes = .error e →
      (disk_thrash env f buf inv).res = .error e ∧
      f ∈ (disk_thrash env f buf inv).inv) := by
  obtain ⟨cr, wr, sr, str, rr⟩ := env
  rcases cr with e1 | ⟨⟩ <;> rcases wr with e2 | ⟨⟩ <;> rcases sr with e3 | ⟨⟩ <;>
    rcases str with e4 | n <;> rcases rr with e5 | ⟨⟩ <;>
    by_cases hb : buf.isEmpty <;>
    (try by_cases hd : n ≠ buf.length) <;>
    simp_all [disk_thrash]

/-- Claim C1, witness for the amended theorem at a concrete input. -/
theorem track_first_even_on_create_failure_w :
    (disk_thrash envCreateFail "g.tmp" [0] ∅).events.head? = some (.track "g.tmp") ∧
    ((disk_thrash envCreateFail "g.tmp" [0] ∅).res = .error "Permission denied" ∧
      "g.tmp" ∈ (disk_thrash envCreateFail "g.tmp" [0] ∅).inv) :=
  ⟨(track_first_even_on_create_failure envCreateFail "g.tmp" [0] ∅).1,
   (track_first_even_on_create_failure envCreateFail "g.tmp" [0] ∅).2
     "Permission denied" rfl⟩

/-- Claim C2, counterexample: on a host with 2 logical processors the
source computes 2 - 2 = 0 workers, not at least 1; no clamp to a floor
of 1 exists in the code (src/main.rs line 96). -/
theorem num_threads_two_cores_cex :
    num_threads 2 = 0 ∧ ¬ 1 ≤ num_threads 2 := by
  constructor
  · decide
  · decide

/-- Claim C2, amended: the coordinator computes the worker count as
exactly (available parallelism) - 2 with no clamping: the result is at
least 1 only when the host has at least 3 logical processors (with 2
it is 0, and with 1 the usize subtraction underflows). -/
theorem num_threads_at_least_three_cores (cores : Nat)
    (h3 : 3 ≤ cores) (hlt : cores < USIZE) :
    num_threads cores = cores - 2 ∧ 1 ≤ num_threads cores := by
  have hU : USIZE = 18446744073709551616 := by norm_num [USIZE]
  unfold num_threads
  rw [hU] at hlt ⊢
  omega

/-- Claim C2, witness for the amended theorem at 4 cores. -/
theorem num_threads_at_least_three_cores_w :
    num_threads 4 = 4 - 2 ∧ 1 ≤ num_threads 4 :=
  num_threads_at_least_three_cores 4 (by decide) (by decide)

/-- Claim C3, counterexample: with a zero-length buffer, a cycle in
which `File::create` itself fails returns the creation error, not the
empty-buffer error — the emptiness check sits after file creation
(src/main.rs lines 40-49), so not every cycle fails with the explicit
empty-buffer error. -/
theorem empty_buffer_create_failure_cex :
    (disk_thrash envCreateFail "f.tmp" ([] : List Nat) ∅).res =
      .error "Permission denied" ∧
    (disk_thrash envCreateFail "f.tmp" ([] : List Nat) ∅).res ≠
      .error "Buffer is empty" := by
  constructor
  · rfl
  · simp [disk_thrash, envCreateFail]

/-- Claim C3, amended: for a zero-length shared buffer, every cycle in
which file creation succeeds fails with the explicit Buffer is empty
error, and in every cycle (whatever the outcomes of the system calls)
no write of the buffer is ever attempted. -/
theorem empty_buffer_error_and_no_write (env : CycleEnv) (f : String)
    (inv : Inventory) :
    (env.createRes = .ok () →
      (disk_thrash env f [] inv).res = .error "Buffer is empty") ∧
    (∀ p, Event.writeAttempt p ∉ (disk_thrash env f [] inv).events) := by
  obtain ⟨cr, wr, sr, str, rr⟩ := env
  rcases cr with e1 | ⟨⟩ <;> simp [disk_thrash]

/-- Claim C3, witness for the amended theorem at a concrete input. -/
theorem empty_buffer_error_and_no_write_w :
    (disk_thrash envStatFive "f.tmp" [] ∅).res = .error "Buffer is empty" ∧
    Event.writeAttempt "f.tmp" ∉ (disk_thrash envStatFive "f.tmp" [] ∅).events :=
  ⟨(empty_buffer_error_and_no_write envStatFive "f.tmp" ∅).1 rfl,
   (empty_buffer_error_and_no_write envStatFive "f.tmp" ∅).2 "f.tmp"⟩

/-- Claim C4: whenever a cycle returns an error — creation failure,
empty-buffer error, write failure, sync failure, stat failure, or
deletion failure — the path of that cycle is still present in
CREATED_FILES, and the inventory is exactly the pre-cycle inventory
with that path inserted: no error path ever removes the entry, so
final cleanup is responsible for it, including paths whose file was
never successfully created. -/
theorem error_keeps_path_tracked (env : CycleEnv) (f : String) (buf : List Nat)
    (inv : Inventory) (e : String)
    (h : (disk_thrash env f buf inv).res = .error e) :
    f ∈ (disk_thrash env f buf inv).inv ∧
    (disk_thrash env f buf inv).inv = insert f inv := by
  obtain ⟨cr, wr, sr, str, rr⟩ := env
  rcases cr with e1 | ⟨⟩ <;> rcases wr with e2 | ⟨⟩ <;> rcases sr with e3 | ⟨⟩ <;>
    rcases str with e4 | n <;> rcases rr with e5 | ⟨⟩ <;>
    by_cases hb : buf.isEmpty <;>
    (try by_cases hd : n ≠ buf.length) <;>
    simp_all [disk_thrash]

/-- Claim C4, witness at a concrete input with a failing creation. -/
theorem error_keeps_path_tracked_w :
    "f.tmp" ∈ (disk_thrash envCreateFail "f.tmp" [0] ∅).inv ∧
    (disk_thrash envCreateFail "f.tmp" [0] ∅).inv = insert "f.tmp" (∅ : Inventory) :=
  error_keeps_path_tracked envCreateFail "f.tmp" [0] ∅ "Permission denied" rfl

/-- Claim C5: the path of a cycle is untracked if and only if deletion
of the file succeeds in that cycle: the untrack action occurs exactly
when the remove call was reached and returned success; on a reached
successful deletion the path is absent from the final inventory; and
on a reached failing deletion the cycle returns the deletion error
with the path still tracked. -/
theorem untrack_iff_delete_success (env : CycleEnv) (f : String) (buf : List Nat)
    (inv : Inventory) :
    (Event.untrack f ∈ (disk_thrash env f buf inv).events ↔
      Event.deleteAttempt f ∈ (disk_thrash env f buf inv).events ∧
        env.removeRes = .ok ()) ∧
    (env.removeRes = .ok () →
      Event.deleteAttempt f ∈ (disk_thrash env f buf inv).events →
      f ∉ (disk_thrash env f buf inv).inv) ∧
    (∀ e, env.removeRes = .error e →
      Event.deleteAttempt f ∈ (disk_thrash env f buf inv).events →
      (disk_thrash env f buf inv).res = .error e ∧
        f ∈ (disk_thrash env f buf inv).inv) := by
  obtain ⟨cr, wr, sr, str, rr⟩ := env
  rcases cr with e1 | ⟨⟩ <;> rcases wr with e2 | ⟨⟩ <;> rcases sr with e3 | ⟨⟩ <;>
    rcases str with e4 | n <;> rcases rr with e5 | ⟨⟩ <;>
    by_cases hb : buf.isEmpty <;>
    (try by_cases hd : n ≠ buf.length) <;>
    simp_all [disk_thrash]

/-- Claim C5, witness at a concrete fully-successful cycle. -/
theorem untrack_iff_delete_success_w :
    (Event.untrack "f.tmp" ∈ (disk_thrash envStatFive "f.tmp" [7] ∅).events ↔
      Event.deleteAttempt "f.tmp" ∈ (disk_thrash envStatFive "f.tmp" [7] ∅).events ∧
        envStatFive.removeRes = .ok ()) ∧
    "f.tmp" ∉ (disk_thrash envStatFive "f.tmp" [7] ∅).inv :=
  ⟨(untrack_iff_delete_success envStatFive "f.tmp" [7] ∅).1,
   (untrack_iff_delete_success envStatFive "f.tmp" [7] ∅).2.1 rfl
     (by simp [disk_thrash, envStatFive])⟩

/-- Helper: from the terminal state, every further state is terminal. -/
theorem statesFrom_stopped (bs : List Bool) :
    statesFrom .stopped bs = List.replicate bs.length .stopped := by
  induction bs with
  | nil => rfl
  | cons b bs ih => simp [statesFrom, wstep, ih, List.replicate]

/-- Helper: once the signal reads true at every check, a worker at a
cycle boundary never enters the running state again. -/
theorem running_not_from_checking (bs : List Bool) (h : ∀ b ∈ bs, b = true) :
    WState.running ∉ statesFrom .checking bs := by
  cases bs with
  | nil => simp [statesFrom]
  | cons b bs =>
    have hb : b = true := h b (by simp)
    subst hb
    simp [statesFrom, wstep, statesFrom_stopped, List.mem_replicate]

/-- Claim C6: once the stop signal reads true at every subsequent
check, a worker at a cycle boundary starts no further cycle; a worker
with a cycle in flight completes exactly that one cycle (its next
state is the cycle boundary, never a fresh cycle) and then stops; the
in-flight cycle completes regardless of the signal value, which is
consulted only at cycle boundaries; the stopped state is terminal; and
a worker whose boundary check reads true terminates at once, running
no cycle and touching nothing. -/
theorem stop_bounds_extra_cycles (bs : List Bool) (h : ∀ b ∈ bs, b = true) :
    WState.running ∉ statesFrom .checking bs ∧
    statesFrom .running (true :: bs) = .checking :: statesFrom .checking bs ∧
    WState.running ∉ statesFrom .running (true :: bs) ∧
    (∀ b, wstep .running b = .checking) ∧
    (∀ b, wstep .stopped b = .stopped) ∧
    (∀ (buffer : List Nat) (inv : Inventory) (it : Iter) (its : List Iter),
      it.signal = true → workerLoop buffer inv (it :: its) = (inv, [])) := by
  refine ⟨running_not_from_checking bs h, rfl, ?_, ?_, ?_, ?_⟩
  · simpa [statesFrom, wstep] using running_not_from_checking bs h
  · intro b; cases b <;> rfl
  · intro b; cases b <;> rfl
  · intro buffer inv it its hsig
    simp [workerLoop, hsig]

/-- Claim C6, witness at a concrete all-true signal schedule. -/
theorem stop_bounds_extra_cycles_w :
    WState.running ∉ statesFrom .checking [true] ∧
    statesFrom .running (true :: [true]) = .checking :: statesFrom .checking [true] ∧
    WState.running ∉ statesFrom .running (true :: [true]) ∧
    wstep .running false = .checking ∧
    wstep .stopped true = .stopped ∧
    workerLoop [0] ∅ [iterStop] = (∅, []) := by
  obtain ⟨h1, h2, h3, h4, h5, h6⟩ := stop_bounds_extra_cycles [true] (by decide)
  exact ⟨h1, h2, h3, h4 false, h5 true, h6 [0] ∅ iterStop [] rfl⟩

/-- Claim C7: the stop signal starts false; the only store the program
performs sets it to true, idempotently; loads never change it; and
once true it stays true under any sequence of the operations the
program performs on it. -/
theorem stop_signal_monotone :
    STOP_SIGNAL_init = false ∧
    (∀ b, sigStep b .requestStop = true) ∧
    (∀ b, sigStep (sigStep b .requestStop) .requestStop = sigStep b .requestStop) ∧
    (∀ b, sigStep b .load = b) ∧
    (∀ ops, sigRun true ops = true) := by
  refine ⟨rfl, fun _ => rfl, fun _ => rfl, fun _ => rfl, ?_⟩
  intro ops
  induction ops with
  | nil => rfl
  | cons op ops ih => cases op <;> simpa [sigRun, sigStep, List.foldl] using ih

/-- Claim C8: when a cycle returns an error and the boundary check
read false, the worker loop reports exactly that error and continues
with the remaining schedule from the post-cycle inventory: the
per-cycle error is printed, does not terminate the worker, does not
escape the loop, and the next iteration begins with a fresh signal
check. -/
theorem cycle_error_continues (buffer : List Nat) (inv : Inventory)
    (it : Iter) (rest : List Iter) (e : String)
    (hs : it.signal = false)
    (he : (disk_thrash it.env it.filename buffer inv).res = .error e) :
    workerLoop buffer inv (it :: rest) =
      ((workerLoop buffer (disk_thrash it.env it.filename buffer inv).inv rest).1,
        (disk_thrash it.env it.filename buffer inv).events ++ [Event.report e] ++
          (workerLoop buffer (disk_thrash it.env it.filename buffer inv).inv rest).2) := by
  simp [workerLoop, hs, he]

/-- Claim C8, witness: a creation failure at a concrete iteration is
reported and the loop continues with the (empty) rest of the schedule. -/
theorem cycle_error_continues_w :
    workerLoop [0] ∅ [iterFail] =
      ((workerLoop [0] (disk_thrash iterFail.env iterFail.filename [0] ∅).inv []).1,
        (disk_thrash iterFail.env iterFail.filename [0] ∅).events ++
          [Event.report "Permission denied"] ++
          (workerLoop [0] (disk_thrash iterFail.env iterFail.filename [0] ∅).inv []).2) :=
  cycle_error_continues [0] ∅ iterFail [] "Permission denied" rfl rfl

/-- Claim C9: in a cycle where stat reports a size different from the
buffer length, the mismatch diagnostic is emitted but the cycle is not
aborted: the settle sleep and the deletion call still occur, and when
the deletion succeeds the cycle returns success, untracks the path,
and leaves it out of the final inventory. -/
theorem size_mismatch_nonfatal (env : CycleEnv) (f : String) (buf : List Nat)
    (inv : Inventory) (n : Nat)
    (hc : env.createRes = .ok ()) (hw : env.writeRes = .ok ())
    (hs : env.syncRes = .ok ()) (hst : env.statRes = .ok n)
    (hne : n ≠ buf.length) (hb : buf ≠ []) :
    Event.mismatchDiag n buf.length ∈ (disk_thrash env f buf inv).events ∧
    Event.settleSleep ∈ (disk_thrash env f buf inv).events ∧
    Event.deleteAttempt f ∈ (disk_thrash env f buf inv).events ∧
    (env.removeRes = .ok () →
      (disk_thrash env f buf inv).res = .ok () ∧
      Event.untrack f ∈ (disk_thrash env f buf inv).events ∧
      f ∉ (disk_thrash env f buf inv).inv) := by
  obtain ⟨cr, wr, sr, str, rr⟩ := env
  simp only at hc hw hs hst
  subst hc; subst hw; subst hs; subst hst
  rcases buf with _ | ⟨a, l⟩
  · exact absurd rfl hb
  · rcases rr with e5 | ⟨⟩ <;> simp_all [disk_thrash]

/-- Claim C9, witness at a concrete mismatching cycle. -/
theorem size_mismatch_nonfatal_w :
    Event.mismatchDiag 5 (List.length [7]) ∈ (disk_thrash envStatFive "f.tmp" [7] ∅).events ∧
    Event.settleSleep ∈ (disk_thrash envStatFive "f.tmp" [7] ∅).events ∧
    Event.deleteAttempt "f.tmp" ∈ (disk_thrash envStatFive "f.tmp" [7] ∅).events ∧
    ((disk_thrash envStatFive "f.tmp" [7] ∅).res = .ok () ∧
      Event.untrack "f.tmp" ∈ (disk_thrash envStatFive "f.tmp" [7] ∅).events ∧
      "f.tmp" ∉ (disk_thrash envStatFive "f.tmp" [7] ∅).inv) := by
  obtain ⟨h1, h2, h3, h4⟩ :=
    size_mismatch_nonfatal envStatFive "f.tmp" [7] ∅ 5 rfl rfl rfl rfl
      (by decide) (by simp)
  exact ⟨h1, h2, h3, h4 rfl⟩

/-- Claim C10: drain removes and returns every currently tracked path
and leaves the inventory empty, so a second drain immediately after
returns an empty result from an empty inventory. -/
theorem drain_all_twice_empty :
    (∀ inv : Inventory, (drain_all inv).1 = inv ∧ (drain_all inv).2 = ∅) ∧
    (∀ inv : Inventory,
      (drain_all (drain_all inv).2).1 = ∅ ∧ (drain_all (drain_all inv).2).2 = ∅) :=
  ⟨fun _ => ⟨rfl, rfl⟩, fun _ => ⟨rfl, rfl⟩⟩
